import Mathlib

/-!
Verification development for the Gmail email scoring program.

The program (main.py) scores emails with a language model, interprets the raw
completion text into an EmailScore record, applies Gmail labels according to
fixed thresholds, and persists results in a SQLite table.  This file gives a
shallow embedding of that logic:

- Python strings are modelled as lists of characters; Python string methods
  (find, rfind, slicing, strip, in) are modelled by executable functions below.
- Python floats are modelled as rationals; the thresholds in the code are
  exactly representable, and no claim depends on binary rounding.
- The completion capability is modelled as a value of type Except, covering
  both a returned text and a raised exception.
- The SQLite table is modelled as a list of rows; INSERT OR REPLACE on the
  unique email_id column removes any row with the same key and appends the
  new row.
-/

/-- Python strings are modelled as lists of characters. -/
abbrev Str := List Char

/-- Whitespace test used by the Python str.strip method (ASCII part: space,
tab, newline, carriage return, vertical tab, form feed; the inputs handled by
the program are ASCII). -/
def pyWs (c : Char) : Bool :=
  c = ' ' || c = Char.ofNat 9 || c = Char.ofNat 10 ||
  c = Char.ofNat 13 || c = Char.ofNat 11 || c = Char.ofNat 12

/-- Python str.strip : remove leading and trailing whitespace. -/
def pyStrip (s : Str) : Str :=
  ((s.dropWhile pyWs).reverse.dropWhile pyWs).reverse

/-- Python s.find(needle) : index of the leftmost occurrence of needle as a
substring of s, or none when s.find would return -1. -/
def strFind (needle : Str) : Str → Option Nat
  | [] => if needle.isPrefixOf ([] : Str) then some 0 else none
  | c :: rest =>
    if needle.isPrefixOf (c :: rest) then some 0
    else (strFind needle rest).map (· + 1)

/-- Python s.rfind(needle) : index of the rightmost occurrence of needle as a
substring of s, or none when s.rfind would return -1. -/
def strRFind (needle : Str) : Str → Option Nat
  | [] => if needle.isPrefixOf ([] : Str) then some 0 else none
  | c :: rest =>
    match strRFind needle rest with
    | some j => some (j + 1)
    | none => if needle.isPrefixOf (c :: rest) then some 0 else none

/-- Leftmost occurrence of needle at an index greater than or equal to k. -/
def strFindFrom (needle s : Str) (k : Nat) : Option Nat :=
  (strFind needle (s.drop k)).map (· + k)

/-- Python substring containment, the expression needle in s. -/
def strContains (needle s : Str) : Bool :=
  (strFind needle s).isSome

/-- Python slicing s[a:b] for 0 <= a and 0 <= b. -/
def sliceStr (s : Str) (a b : Nat) : Str :=
  (s.take b).drop a

example : strFind ("bc".toList) ("abcbc".toList) = some 1 := by decide
example : strRFind ("bc".toList) ("abcbc".toList) = some 3 := by decide
example : strFind ("x".toList) ("abc".toList) = none := by decide
example : pyStrip ("  ab c  ".toList) = ("ab c".toList) := by decide
example : sliceStr ("abcdef".toList) 2 4 = ("cd".toList) := by decide
example : strFindFrom ("a".toList) ("abca".toList) 1 = some 3 := by decide

/-- JSON values, as produced by the Python json.loads library call. -/
inductive JValue where
  | jnull : JValue
  | jbool (b : Bool) : JValue
  | jnum (q : ℚ) : JValue
  | jstr (s : Str) : JValue
  | jarr (xs : List JValue) : JValue
  | jobj (fields : List (Str × JValue)) : JValue

/-- Python equality between a value and a string literal, as in the expression
score.category == "orders": true exactly when the value is that string. -/
def jeqStr : JValue → Str → Bool
  | JValue.jstr s, t => s == t
  | _, _ => false

/-- Value of a digit character. -/
def digitVal (c : Char) : Nat := c.toNat - 48

/-- Natural number denoted by a list of decimal digit characters. -/
def digitsToNat (ds : Str) : Nat :=
  ds.foldl (fun a c => a * 10 + digitVal c) 0

example : digitsToNat ("370".toList) = 370 := by decide

/-- Python float(s) on a string argument: strip whitespace, optional sign,
digits with optional fractional part and optional exponent; none models a
raised ValueError.  The rational is assembled with mkRat from an integer
numerator and a power-of-ten denominator.  Non-finite inputs (inf, nan) and
digit underscores are outside the rational embedding and also map to none. -/
def pyFloatOfStr (s : Str) : Option ℚ :=
  let t := pyStrip s
  let signAndRest : Bool × Str :=
    match t with
    | c :: r => if c = '-' then (true, r) else if c = '+' then (false, r) else (false, t)
    | [] => (false, t)
  let neg := signAndRest.1
  let t1 := signAndRest.2
  let ip := t1.takeWhile Char.isDigit
  let r1 := t1.drop ip.length
  let fracAndRest : Str × Str :=
    match r1 with
    | c :: r => if c = '.' then (r.takeWhile Char.isDigit, r.drop (r.takeWhile Char.isDigit).length)
                else ([], r1)
    | [] => ([], r1)
  let fp := fracAndRest.1
  let r2 := fracAndRest.2
  if ip = [] ∧ fp = [] then none
  else
    let num : Int := if neg then -(digitsToNat (ip ++ fp) : Int) else (digitsToNat (ip ++ fp) : Int)
    let den : Nat := 10 ^ fp.length
    match r2 with
    | [] => some (mkRat num den)
    | c :: r3 =>
      if c = 'e' ∨ c = 'E' then
        let expSignAndRest : Bool × Str :=
          match r3 with
          | d :: r => if d = '-' then (true, r) else if d = '+' then (false, r) else (false, r3)
          | [] => (false, r3)
        let eneg := expSignAndRest.1
        let r4 := expSignAndRest.2
        let ed := r4.takeWhile Char.isDigit
        if ed = [] ∨ r4.drop ed.length ≠ [] then none
        else
          let e := digitsToNat ed
          some (if eneg then mkRat num (den * 10 ^ e) else mkRat (num * (10 ^ e : Nat)) den)
      else none

example : pyFloatOfStr (" 7.5 ".toList) = some (mkRat 15 2) := by decide
example : pyFloatOfStr ("-2e2".toList) = some (-200 : ℚ) := by decide
example : pyFloatOfStr ("high".toList) = none := by decide
example : pyFloatOfStr (".5e1".toList) = some (5 : ℚ) := by decide
example : pyFloatOfStr ("".toList) = none := by decide

/-- Python float(v) applied to a value coming from json.loads: numbers pass
through, booleans coerce to 0 or 1 (bool is an int subclass), numeric strings
are parsed, and null, arrays and objects raise (modelled as none). -/
def pyFloat : JValue → Option ℚ
  | JValue.jnum q => some q
  | JValue.jbool b => some (if b then 1 else 0)
  | JValue.jstr s => pyFloatOfStr s
  | JValue.jnull => none
  | JValue.jarr _ => none
  | JValue.jobj _ => none

/-- Python dict.get(k, d) on the dict built by json.loads: with duplicate
keys the last occurrence wins, because later assignments overwrite. -/
def pyGet (fields : List (Str × JValue)) (k : Str) (d : JValue) : JValue :=
  match fields.reverse.find? (fun p => p.1 == k) with
  | some p => p.2
  | none => d

/-- Presence of key k in the dict built by json.loads (last occurrence). -/
def pyLookup (fields : List (Str × JValue)) (k : Str) : Option JValue :=
  (fields.reverse.find? (fun p => p.1 == k)).map (fun p => p.2)

example : pyGet [(("a".toList), JValue.jnum 1), (("a".toList), JValue.jnum 2)] ("a".toList) JValue.jnull = JValue.jnum 2 := rfl
example : pyLookup ([] : List (Str × JValue)) ("a".toList) = none := rfl

/-- Opening curly brace character. -/
def obrace : Char := Char.ofNat 123

/-- Closing curly brace character. -/
def cbrace : Char := Char.ofNat 125

/-- Double quote character. -/
def qmark : Char := Char.ofNat 34

/-- Backslash character. -/
def bslash : Char := Char.ofNat 92

/-- Opening square bracket character. -/
def obrack : Char := '['

/-- Closing square bracket character. -/
def cbrack : Char := ']'

/-- JSON whitespace accepted between tokens by json.loads. -/
def jWs (c : Char) : Bool :=
  c = ' ' || c = Char.ofNat 9 || c = Char.ofNat 10 || c = Char.ofNat 13

/-- Hexadecimal digit value. -/
def hexVal (c : Char) : Option Nat :=
  if c.isDigit then some (c.toNat - 48)
  else if 'a' ≤ c ∧ c ≤ 'f' then some (c.toNat - 87)
  else if 'A' ≤ c ∧ c ≤ 'F' then some (c.toNat - 55)
  else none

/-- Body of a JSON string literal, after the opening quote: returns the
decoded characters and the remaining input past the closing quote.  Standard
escape sequences are decoded; the fuel argument is at least the input length
so the fuel branch is unreachable. -/
def parseJStrAux : Nat → Str → Str → Except Str (Str × Str)
  | 0, _, _ => Except.error ("Unterminated string".toList)
  | fuel + 1, acc, s =>
    match s with
    | [] => Except.error ("Unterminated string".toList)
    | c :: r =>
      if c = qmark then Except.ok (acc.reverse, r)
      else if c = bslash then
        match r with
        | [] => Except.error ("Invalid escape".toList)
        | e :: r2 =>
          if e = qmark then parseJStrAux fuel (qmark :: acc) r2
          else if e = bslash then parseJStrAux fuel (bslash :: acc) r2
          else if e = '/' then parseJStrAux fuel ('/' :: acc) r2
          else if e = 'b' then parseJStrAux fuel (Char.ofNat 8 :: acc) r2
          else if e = 'f' then parseJStrAux fuel (Char.ofNat 12 :: acc) r2
          else if e = 'n' then parseJStrAux fuel (Char.ofNat 10 :: acc) r2
          else if e = 'r' then parseJStrAux fuel (Char.ofNat 13 :: acc) r2
          else if e = 't' then parseJStrAux fuel (Char.ofNat 9 :: acc) r2
          else if e = 'u' then
            match r2 with
            | h1 :: h2 :: h3 :: h4 :: r3 =>
              match hexVal h1, hexVal h2, hexVal h3, hexVal h4 with
              | some x1, some x2, some x3, some x4 =>
                parseJStrAux fuel (Char.ofNat (x1 * 4096 + x2 * 256 + x3 * 16 + x4) :: acc) r3
              | _, _, _, _ => Except.error ("Invalid unicode escape".toList)
            | _ => Except.error ("Invalid unicode escape".toList)
          else Except.error ("Invalid escape".toList)
      else parseJStrAux fuel (c :: acc) r

/-- JSON number grammar accepted by json.loads: optional minus, an integer
part without leading zeros, optional fraction, optional exponent.  Returns
the rational and the remaining input. -/
def parseJNum (s : Str) : Except Str (ℚ × Str) :=
  let signAndRest : Bool × Str :=
    match s with
    | c :: r => if c = '-' then (true, r) else (false, s)
    | [] => (false, s)
  let neg := signAndRest.1
  let t1 := signAndRest.2
  let ip := t1.takeWhile Char.isDigit
  let r1 := t1.drop ip.length
  if hip : ip = [] then Except.error ("Expecting value".toList)
  else if ip.length > 1 ∧ ip.head hip = '0' then Except.error ("Expecting value".toList)
  else
    let fracAndRest : Option Str × Str :=
      match r1 with
      | c :: r =>
        if c = '.' then
          (some (r.takeWhile Char.isDigit), r.drop (r.takeWhile Char.isDigit).length)
        else (none, r1)
      | [] => (none, r1)
    match fracAndRest.1 with
    | some fp =>
      if fp = [] then Except.error ("Expecting digits after decimal point".toList)
      else parseJNumExp neg ip fp fracAndRest.2
    | none => parseJNumExp neg ip [] r1
where
  /-- Optional exponent part, then assemble the rational with mkRat. -/
  parseJNumExp (neg : Bool) (ip fp : Str) (r2 : Str) : Except Str (ℚ × Str) :=
    let num : Int := if neg then -(digitsToNat (ip ++ fp) : Int) else (digitsToNat (ip ++ fp) : Int)
    let den : Nat := 10 ^ fp.length
    match r2 with
    | c :: r3 =>
      if c = 'e' ∨ c = 'E' then
        let expSignAndRest : Bool × Str :=
          match r3 with
          | d :: r => if d = '-' then (true, r) else if d = '+' then (false, r) else (false, r3)
          | [] => (false, r3)
        let ed := expSignAndRest.2.takeWhile Char.isDigit
        if ed = [] then Except.error ("Expecting digits in exponent".toList)
        else
          let e := digitsToNat ed
          let rest := expSignAndRest.2.drop ed.length
          if expSignAndRest.1 then Except.ok (mkRat num (den * 10 ^ e), rest)
          else Except.ok (mkRat (num * (10 ^ e : Nat)) den, rest)
      else Except.ok (mkRat num den, r2)
    | [] => Except.ok (mkRat num den, r2)

/-- One pass of JSON value parsing with fuel, modelling json.loads.  Object
members and array elements are parsed by the fueled helper loops below, which
receive the value parser for the next smaller fuel. -/
def parseVal : Nat → Str → Except Str (JValue × Str)
  | 0, _ => Except.error ("Nesting too deep".toList)
  | fuel + 1, s =>
    let t := s.dropWhile jWs
    match t with
    | [] => Except.error ("Expecting value".toList)
    | c :: r =>
      if c = qmark then
        match parseJStrAux (r.length + 1) [] r with
        | Except.error e => Except.error e
        | Except.ok (st, rem) => Except.ok (JValue.jstr st, rem)
      else if c = obrace then
        let t2 := r.dropWhile jWs
        match t2 with
        | c2 :: r2 =>
          if c2 = cbrace then Except.ok (JValue.jobj [], r2)
          else parseMembers (parseVal fuel) (t2.length + 1) [] t2
        | [] => Except.error ("Expecting property name".toList)
      else if c = obrack then
        let t2 := r.dropWhile jWs
        match t2 with
        | c2 :: r2 =>
          if c2 = cbrack then Except.ok (JValue.jarr [], r2)
          else parseElems (parseVal fuel) (t2.length + 1) [] t2
        | [] => Except.error ("Expecting value".toList)
      else if ("true".toList).isPrefixOf t then Except.ok (JValue.jbool true, t.drop 4)
      else if ("false".toList).isPrefixOf t then Except.ok (JValue.jbool false, t.drop 5)
      else if ("null".toList).isPrefixOf t then Except.ok (JValue.jnull, t.drop 4)
      else
        match parseJNum t with
        | Except.error e => Except.error e
        | Except.ok (q, rem) => Except.ok (JValue.jnum q, rem)
where
  /-- Object member loop: key string, colon, value, then comma or closing
  brace. -/
  parseMembers (pv : Str → Except Str (JValue × Str)) :
      Nat → List (Str × JValue) → Str → Except Str (JValue × Str)
    | 0, _, _ => Except.error ("Nesting too deep".toList)
    | fuel + 1, acc, s =>
      let t := s.dropWhile jWs
      match t with
      | c :: r =>
        if c = qmark then
          match parseJStrAux (r.length + 1) [] r with
          | Except.error e => Except.error e
          | Except.ok (key, r2) =>
            let t2 := r2.dropWhile jWs
            match t2 with
            | c2 :: r3 =>
              if c2 = ':' then
                match pv r3 with
                | Except.error e => Except.error e
                | Except.ok (v, r4) =>
                  let t4 := r4.dropWhile jWs
                  match t4 with
                  | c4 :: r5 =>
                    if c4 = ',' then parseMembers pv fuel ((key, v) :: acc) r5
                    else if c4 = cbrace then Except.ok (JValue.jobj ((key, v) :: acc).reverse, r5)
                    else Except.error ("Expecting comma delimiter".toList)
                  | [] => Except.error ("Expecting comma delimiter".toList)
              else Except.error ("Expecting colon delimiter".toList)
            | [] => Except.error ("Expecting colon delimiter".toList)
        else Except.error ("Expecting property name".toList)
      | [] => Except.error ("Expecting property name".toList)
  /-- Array element loop: value, then comma or closing bracket. -/
  parseElems (pv : Str → Except Str (JValue × Str)) :
      Nat → List JValue → Str → Except Str (JValue × Str)
    | 0, _, _ => Except.error ("Nesting too deep".toList)
    | fuel + 1, acc, s =>
      match pv s with
      | Except.error e => Except.error e
      | Except.ok (v, r) =>
        let t := r.dropWhile jWs
        match t with
        | c :: r2 =>
          if c = ',' then parseElems pv fuel (v :: acc) r2
          else if c = cbrack then Except.ok (JValue.jarr (v :: acc).reverse, r2)
          else Except.error ("Expecting comma delimiter".toList)
        | [] => Except.error ("Expecting comma delimiter".toList)

/-- Python json.loads: parse one value and require only whitespace after it.
The fuel exceeds the input length, and every nesting level consumes at least
one character, so the fuel branches are unreachable. -/
def loads (s : Str) : Except Str JValue :=
  match parseVal (s.length + 1) s with
  | Except.error e => Except.error e
  | Except.ok (v, rem) =>
    if rem.dropWhile jWs = [] then Except.ok v
    else Except.error ("Extra data".toList)

/-- The opening thinking marker handled at main.py line 93. -/
def thinkOpen : Str := "<think>".toList

/-- The closing thinking marker handled at main.py lines 93-96. -/
def thinkClose : Str := "</think>".toList

/-- The JSON-tagged code fence marker handled at main.py line 100. -/
def fenceJson : Str := "```json".toList

/-- The plain code fence marker handled at main.py lines 102-107. -/
def fenceMark : Str := "```".toList

/-- Removal of thinking tags, main.py lines 93-97: when the text contains
both the opening and the closing marker, keep only the text after the first
closing marker and strip it. -/
def removeThink (s : Str) : Str :=
  match strFind thinkOpen s, strFind thinkClose s with
  | some _, some i => pyStrip (s.drop (i + 8))
  | _, _ => s

/-- Removal of markdown code fences, main.py lines 100-109: when the text
contains a JSON-tagged fence, slice from just after the first such tag to the
rightmost plain fence; otherwise, when it contains a plain fence, slice from
just after the first fence to the rightmost fence; slicing happens only when
the right end is strictly past the start. -/
def removeFences (s : Str) : Str :=
  match strFind fenceJson s with
  | some i =>
    match strRFind fenceMark s with
    | some e => if i + 7 < e then pyStrip (sliceStr s (i + 7) e) else s
    | none => s
  | none =>
    match strFind fenceMark s with
    | some i =>
      match strRFind fenceMark s with
      | some e => if i + 3 < e then pyStrip (sliceStr s (i + 3) e) else s
      | none => s
    | none => s

/-- The extraction the specification describes for the JSON-tagged case: the
content strictly between the first JSON-tagged fence and the next closing
fence after it.  This definition follows the words of the specification and
is compared against removeFences, which is translated from the code. -/
def specTaggedExtract (s : Str) : Option Str :=
  match strFind fenceJson s with
  | some i =>
    match strFindFrom fenceMark s (i + 7) with
    | some e => some (pyStrip (sliceStr s (i + 7) e))
    | none => none
  | none => none

/-- Matcher for the body of the regular expression at main.py line 113 after
an opening brace: a run of non-brace characters, then repeatedly either a
closing brace (success) or a one-level nested brace pair followed by more
non-brace characters.  Returns the number of characters consumed including
the final closing brace.  A second-level opening brace or the end of input
fails, exactly as the backtracking regex does.  The fuel is at least the
input length, so the fuel branch is unreachable. -/
def matchInner : Nat → Str → Option Nat
  | 0, _ => none
  | fuel + 1, s =>
    let b := s.takeWhile (fun c => c ≠ obrace ∧ c ≠ cbrace)
    let r := s.drop b.length
    match r with
    | [] => none
    | c :: r2 =>
      if c = cbrace then some (b.length + 1)
      else
        let b2 := r2.takeWhile (fun c => c ≠ obrace ∧ c ≠ cbrace)
        let r3 := r2.drop b2.length
        match r3 with
        | c2 :: r4 =>
          if c2 = cbrace then
            match matchInner fuel r4 with
            | some n => some (b.length + 1 + b2.length + 1 + n)
            | none => none
          else none
        | [] => none

/-- Attempt to match the JSON-object regex at the head of s, returning the
matched prefix length. -/
def matchAt (s : Str) : Option Nat :=
  match s with
  | [] => none
  | c :: r =>
    if c = obrace then (matchInner (r.length + 1) r).map (· + 1)
    else none

/-- re.findall(pattern, text)[0] for the brace pattern at main.py lines
113-117: the match at the leftmost position where the pattern matches. -/
def firstJsonMatch : Str → Option Str
  | [] => none
  | s@(_ :: rest) =>
    match matchAt s with
    | some n => some (s.take n)
    | none => firstJsonMatch rest

/-- The EmailScore dataclass of main.py lines 25-31.  Python would store any
parsed JSON value in category and reasoning, so those fields keep type
JValue; the numeric fields are coerced through float and are rationals. -/
structure EmailScore where
  importance_score : ℚ
  spam_score : ℚ
  category : JValue
  reasoning : JValue
  confidence : ℚ

/-- The importance_score key string. -/
def keyImportance : Str := "importance_score".toList

/-- The spam_score key string. -/
def keySpam : Str := "spam_score".toList

/-- The category key string. -/
def keyCategory : Str := "category".toList

/-- The reasoning key string. -/
def keyReasoning : Str := "reasoning".toList

/-- The confidence key string. -/
def keyConfidence : Str := "confidence".toList

/-- Default category value, main.py line 134. -/
def unknownCat : Str := "unknown".toList

/-- Default reasoning value, main.py line 135. -/
def noReasonTxt : Str := "No reasoning provided".toList

/-- Message of the ValueError raised at main.py line 87 for an empty
response. -/
def emptyMsg : Str := "Empty response from model".toList

/-- Message of the ValueError raised at main.py line 121 when the brace
pattern has no match. -/
def noJsonMsg : Str := "No JSON found in model response".toList

/-- Representative message of the ValueError or TypeError raised by a failed
float coercion at main.py lines 132-136 (Python words the message per value;
the claims only depend on the failure itself being propagated). -/
def coerceMsg : Str := "could not convert value to float".toList

/-- Message of the AttributeError Python would raise if json.loads returned a
non-dict; unreachable, because every regex match starts with a brace. -/
def notDictMsg : Str := "result has no attribute get".toList

/-- Construction of the EmailScore from the parsed JSON dict, main.py lines
131-137: each key falls back to its default when absent, and the three
numeric fields are coerced through float, whose failure raises out of the
whole construction. -/
def buildScore (fields : List (Str × JValue)) : Except Str EmailScore :=
  match pyFloat (pyGet fields keyImportance (JValue.jnum 5)) with
  | none => Except.error coerceMsg
  | some imp =>
    match pyFloat (pyGet fields keySpam (JValue.jnum 0)) with
    | none => Except.error coerceMsg
    | some spam =>
      let cat := pyGet fields keyCategory (JValue.jstr unknownCat)
      let reas := pyGet fields keyReasoning (JValue.jstr noReasonTxt)
      match pyFloat (pyGet fields keyConfidence (JValue.jnum (mkRat 1 2))) with
      | none => Except.error coerceMsg
      | some conf => Except.ok ⟨imp, spam, cat, reas, conf⟩

/-- The response interpretation performed inside the try block of
EmailScorer.score_email, main.py lines 78-137: strip the raw completion,
fail on empty text, drop thinking tags, drop code fences, find the first
brace-pattern match, strip it, parse it as JSON, and build the EmailScore.
An error models an exception reaching the except handler at line 139. -/
def interpret (raw : Str) : Except Str EmailScore :=
  let t := pyStrip raw
  if t = [] then Except.error emptyMsg
  else
    let t1 := removeThink t
    let t2 := removeFences t1
    match firstJsonMatch t2 with
    | none => Except.error noJsonMsg
    | some m =>
      match loads (pyStrip m) with
      | Except.error e => Except.error e
      | Except.ok (JValue.jobj fields) => buildScore fields
      | Except.ok _ => Except.error notDictMsg

/-- Prefix of the fallback reasoning text, main.py line 146. -/
def errHead : Str := "Error during scoring: ".toList

/-- The fallback EmailScore built in the except handler, main.py lines
142-148. -/
def fallbackScore (e : Str) : EmailScore :=
  ⟨5, 0, JValue.jstr unknownCat, JValue.jstr (errHead ++ e), mkRat 1 10⟩

/-- Body preview, main.py line 46: empty body gives the empty string, any
other body is cut hard at 1500 characters. -/
def bodyPreview (body : Str) : Str :=
  if body = [] then [] else body.take 1500

/-- First fixed segment of the prompt f-string at main.py lines 48-65. -/
def promptSeg1 : Str :=
  ("Classify this email. Output JSON only, no thinking or explanation.\n\nSENDER: ").toList

/-- Second fixed segment of the prompt f-string. -/
def promptSeg2 : Str := ("\nSUBJECT: ").toList

/-- Third fixed segment of the prompt f-string. -/
def promptSeg3 : Str := ("\nCONTENT: ").toList

/-- Final fixed segment of the prompt f-string, including the doubled-brace
JSON example which renders as literal braces. -/
def promptSeg4 : Str :=
  ("\n\nRules:\n- Work emails: importance 7-9\n- Orders/shipping/deliveries: importance 6-7\n- Personal emails: importance 6-8\n- Notifications: importance 3-5\n- Marketing/newsletters: importance 1-3\n- Unknown/suspicious senders: higher spam score\n\nOrders category includes: Amazon, retailers, shipping companies (UPS/FedEx/USPS), order confirmations, delivery updates, tracking info.\n\nOutput this exact JSON format:\n\x7b\"importance_score\": [0-10], \"spam_score\": [0-10], \"category\": \"[work/personal/orders/newsletter/promotion/spam/notification]\", \"reasoning\": \"[brief]\", \"confidence\": [0.0-1.0]\x7d").toList

/-- The classification prompt built at main.py lines 46-65.  The f-string
interpolates sender, subject and the body preview; the email_date parameter
of score_email does not occur in it. -/
def buildPrompt (sender subject body email_date : Str) : Str :=
  promptSeg1 ++ sender ++ promptSeg2 ++ subject ++ promptSeg3 ++ bodyPreview body ++ promptSeg4

/-- EmailScorer.score_email, main.py lines 42-148.  The completion capability
is a function from the prompt to either raw text or a raised exception
message; the whole try block funnels every failure into the fallback
EmailScore of the except handler. -/
def score_email (oracle : Str → Except Str Str)
    (sender subject body email_date : Str) : EmailScore :=
  let prompt := buildPrompt sender subject body email_date
  match oracle prompt with
  | Except.error e => fallbackScore e
  | Except.ok content =>
    match interpret content with
    | Except.ok sc => sc
    | Except.error e => fallbackScore e

/-- Label name for the orders category, main.py line 545. -/
def lblOrders : Str := "EmailScorer/Orders-Shipping".toList

/-- Label name for high importance, main.py line 550. -/
def lblHigh : Str := "EmailScorer/High-Importance".toList

/-- Label name for medium importance, main.py line 553. -/
def lblMed : Str := "EmailScorer/Medium-Importance".toList

/-- Label name for low importance, main.py line 556. -/
def lblLow : Str := "EmailScorer/Low-Importance".toList

/-- Label name for likely spam, main.py line 561. -/
def lblSpam : Str := "EmailScorer/Likely-Spam".toList

/-- Label name for low-confidence review, main.py line 566. -/
def lblReview : Str := "EmailScorer/Needs-Review".toList

/-- The orders category string compared at main.py line 544. -/
def ordersCat : Str := "orders".toList

/-- EmailScoringSystem._apply_scoring_labels, main.py lines 539-569.  The
applyLabel argument models GmailManager.apply_label, which returns a boolean
and never raises; each decided label is attempted in order and appended to
the returned list only when its application reports success. -/
def apply_scoring_labels (applyLabel : Str → Bool) (score : EmailScore) : List Str :=
  let labels0 : List Str := []
  let labels1 :=
    if jeqStr score.category ordersCat then
      if applyLabel lblOrders then labels0 ++ [lblOrders] else labels0
    else labels0
  let labels2 :=
    if (8 : ℚ) ≤ score.importance_score then
      if applyLabel lblHigh then labels1 ++ [lblHigh] else labels1
    else if (5 : ℚ) ≤ score.importance_score then
      if applyLabel lblMed then labels1 ++ [lblMed] else labels1
    else
      if applyLabel lblLow then labels1 ++ [lblLow] else labels1
  let labels3 :=
    if (7 : ℚ) ≤ score.spam_score then
      if applyLabel lblSpam then labels2 ++ [lblSpam] else labels2
    else labels2
  let labels4 :=
    if score.confidence < mkRat 6 10 then
      if applyLabel lblReview then labels3 ++ [lblReview] else labels3
    else labels3
  labels4

/-- The ordered list of labels the decision rules select when every
application succeeds: the decided set of the specification. -/
def decidedLabels (score : EmailScore) : List Str :=
  (if jeqStr score.category ordersCat then [lblOrders] else [])
  ++ [if (8 : ℚ) ≤ score.importance_score then lblHigh
      else if (5 : ℚ) ≤ score.importance_score then lblMed
      else lblLow]
  ++ (if (7 : ℚ) ≤ score.spam_score then [lblSpam] else [])
  ++ (if score.confidence < mkRat 6 10 then [lblReview] else [])

/-- A conditional append of one element is an append of a conditional
singleton. -/
theorem ite_append_single (b : Bool) (acc : List Str) (x : Str) :
    (if b = true then acc ++ [x] else acc) = acc ++ (if b = true then [x] else []) := by
  cases b <;> simp

/-- Filtering a singleton list. -/
theorem filter_one (f : Str → Bool) (x : Str) :
    List.filter f [x] = (if f x = true then [x] else []) := by
  cases hfx : f x <;> simp [List.filter, hfx]

set_option maxHeartbeats 1000000 in
/-- Every run of the label loop applies exactly the decided labels that the
capability accepts, in decision order. -/
theorem applyLabels_eq_filter (f : Str → Bool) (sc : EmailScore) :
    apply_scoring_labels f sc = (decidedLabels sc).filter f := by
  unfold apply_scoring_labels decidedLabels
  by_cases h1 : jeqStr sc.category ordersCat = true <;>
  by_cases h2 : (8 : ℚ) ≤ sc.importance_score <;>
  by_cases h3 : (5 : ℚ) ≤ sc.importance_score <;>
  by_cases h4 : (7 : ℚ) ≤ sc.spam_score <;>
  by_cases h5 : sc.confidence < mkRat 6 10 <;>
  simp only [h1, h2, h3, h4, h5, if_true, if_false, ite_true, ite_false,
    List.filter_append, List.nil_append, List.append_nil, filter_one,
    ite_append_single, eq_self_iff_true] <;>
  split_ifs <;>
  simp_all [List.filter_append, filter_one]

mutual

/-- Structural equality of JSON values, used to model the value comparison
the SQL GROUP BY performs on the stored category column. -/
def beqJ : JValue → JValue → Bool
  | JValue.jnull, JValue.jnull => true
  | JValue.jbool a, JValue.jbool b => a == b
  | JValue.jnum a, JValue.jnum b => a == b
  | JValue.jstr a, JValue.jstr b => a == b
  | JValue.jarr a, JValue.jarr b => beqJList a b
  | JValue.jobj a, JValue.jobj b => beqJKV a b
  | _, _ => false

/-- Structural equality of JSON value lists. -/
def beqJList : List JValue → List JValue → Bool
  | [], [] => true
  | a :: as, b :: bs => beqJ a b && beqJList as bs
  | _, _ => false

/-- Structural equality of JSON object field lists. -/
def beqJKV : List (Str × JValue) → List (Str × JValue) → Bool
  | [], [] => true
  | (k1, v1) :: as, (k2, v2) :: bs => k1 == k2 && beqJ v1 v2 && beqJKV as bs
  | _, _ => false

end

instance : BEq JValue := ⟨beqJ⟩

/-- One row of the email_scores table created at main.py lines 354-370.  The
autoincrement id column is bookkeeping of the storage engine and carries no
program-visible information; email_id is the UNIQUE key the upsert conflicts
on.  user_feedback is nullable and is never supplied by save_score. -/
structure LedgerRow where
  email_id : Str
  sender : Str
  subject : Str
  date_processed : Int
  importance_score : ℚ
  spam_score : ℚ
  category : JValue
  reasoning : JValue
  confidence : ℚ
  model_version : Str
  labels_applied : Str
  user_feedback : Option Str

/-- The fields of the email dict used by EmailDatabase.save_score. -/
structure EmailRec where
  id : Str
  sender : Str
  subject : Str

/-- Python ",".join applied to the labels list, main.py line 404. -/
def joinLabels (labels : List Str) : Str :=
  List.intercalate (",".toList) labels

/-- The row written by EmailDatabase.save_score, main.py lines 388-405: the
eleven supplied columns, with model_version fixed at v1.0 and user_feedback
left unsupplied, hence NULL. -/
def mkRow (em : EmailRec) (sc : EmailScore) (labels : List Str) (now : Int) : LedgerRow :=
  ⟨em.id, em.sender, em.subject, now, sc.importance_score, sc.spam_score,
   sc.category, sc.reasoning, sc.confidence, ("v1.0".toList), joinLabels labels, none⟩

/-- EmailDatabase.save_score, main.py lines 383-408: INSERT OR REPLACE keyed
on the unique email_id column deletes any row with the same email_id and
inserts the new row.  The wall-clock timestamp datetime.now() is passed
explicitly. -/
def save_score (db : List LedgerRow) (em : EmailRec) (sc : EmailScore)
    (labels : List Str) (now : Int) : List LedgerRow :=
  db.filter (fun r => r.email_id != em.id) ++ [mkRow em sc labels now]

/-- EmailDatabase.is_email_processed, main.py lines 410-419: SELECT 1 WHERE
email_id matches, then fetchone is not None. -/
def is_email_processed (db : List LedgerRow) (email_id : Str) : Bool :=
  db.any (fun r => r.email_id == email_id)

/-- The aggregate returned by EmailDatabase.get_performance_stats, main.py
lines 470-476. -/
structure PerfStats where
  total_processed : Nat
  avg_confidence : ℚ
  high_importance_count : Nat
  spam_count : Nat
  categories : List (JValue × Nat)

/-- One result row of the GROUP BY query at main.py lines 454-465: COUNT,
AVG(confidence), the two threshold counts, the category, and COUNT again. -/
structure GroupRow where
  total_emails : Nat
  avg_confidence : ℚ
  high_importance : Nat
  likely_spam : Nat
  category : JValue
  category_count : Nat

/-- EmailDatabase.get_performance_stats, main.py lines 447-476: filter rows
whose processed timestamp is at least the window start, group them by
category, aggregate per group as the SQL query does, and combine the group
rows as the Python dictionary construction does; the weighted-average
division is guarded by the emptiness test on the result list. -/
def get_performance_stats (db : List LedgerRow) (since : Int) : PerfStats :=
  let rows := db.filter (fun r => decide (since ≤ r.date_processed))
  let cats := (rows.map (fun r => r.category)).eraseDups
  let results := cats.map (fun c =>
    let g := rows.filter (fun r => r.category == c)
    { total_emails := g.length
      avg_confidence := (g.map (fun r => r.confidence)).sum / (g.length : ℚ)
      high_importance := g.countP (fun r => decide ((7 : ℚ) ≤ r.importance_score))
      likely_spam := g.countP (fun r => decide ((7 : ℚ) ≤ r.spam_score))
      category := c
      category_count := g.length : GroupRow })
  { total_processed := (results.map (fun r => r.category_count)).sum
    avg_confidence :=
      if results.isEmpty then 0
      else (results.map (fun r => r.avg_confidence * (r.category_count : ℚ))).sum /
           ((results.map (fun r => (r.category_count : ℚ))).sum)
    high_importance_count := (results.map (fun r => r.high_importance)).sum
    spam_count := (results.map (fun r => r.likely_spam)).sum
    categories := results.map (fun r => (r.category, r.category_count)) }

/-- Rows of the upserted table matching the saved key are exactly the newly
written row. -/
theorem save_score_filter (db : List LedgerRow) (em : EmailRec) (sc : EmailScore)
    (labels : List Str) (now : Int) :
    (save_score db em sc labels now).filter (fun r => r.email_id == em.id) =
      [mkRow em sc labels now] := by
  unfold save_score
  rw [List.filter_append]
  have h1 : (db.filter (fun r => r.email_id != em.id)).filter (fun r => r.email_id == em.id) = [] := by
    rw [List.filter_eq_nil_iff]
    intro a ha
    have := (List.mem_filter.mp ha).2
    simp only [bne_iff_ne, ne_eq] at this
    simp [this]
  rw [h1]
  simp [mkRow]

/-- The processed check succeeds for a key right after it is saved. -/
theorem processed_after_save (db : List LedgerRow) (em : EmailRec) (sc : EmailScore)
    (labels : List Str) (now : Int) :
    is_email_processed (save_score db em sc labels now) em.id = true := by
  unfold is_email_processed save_score
  simp [mkRow]

/-- A short demonstration error message for witnesses. -/
def demoErr : Str := "connection timed out".toList

/-- A short demonstration string for witnesses. -/
def demoStr : Str := "a".toList

/-- Claim C1: for every input (sender, subject, body, date) and every
behavior of the completion capability (any returned text or any raised
exception), score_email is a total function into EmailScore, and whenever
the capability call or the interpretation fails, the result is exactly the
fallback EmailScore with importance 5.0, spam 0.0, category unknown,
confidence 0.1, and the failure cause appended to the reasoning prefix;
on interpreter success the interpreted score is returned unchanged. -/
theorem score_email_total_fallback (oracle : Str → Except Str Str)
    (sender subject body email_date : Str) :
    (∀ e, oracle (buildPrompt sender subject body email_date) = Except.error e →
      score_email oracle sender subject body email_date =
        ⟨5, 0, JValue.jstr unknownCat, JValue.jstr (errHead ++ e), mkRat 1 10⟩)
    ∧ (∀ t e, oracle (buildPrompt sender subject body email_date) = Except.ok t →
        interpret t = Except.error e →
        score_email oracle sender subject body email_date =
          ⟨5, 0, JValue.jstr unknownCat, JValue.jstr (errHead ++ e), mkRat 1 10⟩)
    ∧ (∀ t sc, oracle (buildPrompt sender subject body email_date) = Except.ok t →
        interpret t = Except.ok sc →
        score_email oracle sender subject body email_date = sc) := by
  refine ⟨?_, ?_, ?_⟩
  · intro e he
    simp [score_email, he, fallbackScore]
  · intro t e ho hi
    simp [score_email, ho, hi, fallbackScore]
  · intro t sc ho hi
    simp [score_email, ho, hi]

/-- Witness for claim C1: a raised capability exception and an empty
completion both produce the fallback EmailScore at concrete inputs. -/
theorem score_email_total_fallback_applied :
    score_email (fun _ => Except.error demoErr) demoStr demoStr demoStr demoStr =
      ⟨5, 0, JValue.jstr unknownCat, JValue.jstr (errHead ++ demoErr), mkRat 1 10⟩
    ∧ score_email (fun _ => Except.ok []) demoStr demoStr demoStr demoStr =
      ⟨5, 0, JValue.jstr unknownCat, JValue.jstr (errHead ++ emptyMsg), mkRat 1 10⟩ :=
  ⟨(score_email_total_fallback (fun _ => Except.error demoErr) demoStr demoStr demoStr demoStr).1
      demoErr rfl,
   (score_email_total_fallback (fun _ => Except.ok []) demoStr demoStr demoStr demoStr).2.1
      [] emptyMsg rfl rfl⟩

/-- A demonstration reasoning value for the claim C2 scenario. -/
def demoReason : JValue := JValue.jstr ("r".toList)

/-- Claim C2: with every label application succeeding, the label decision is
the deterministic ordered concatenation: the orders label exactly when the
category is the string orders, then exactly one importance tier by
descending threshold (high at 8, medium at 5, low otherwise), then the spam
label exactly when spam is at least 7, then the review label exactly when
confidence is below 0.6; and the concrete scenario category orders,
importance 6.5, spam 0, confidence 0.8 yields exactly the orders label then
the medium label. -/
theorem apply_scoring_labels_decision (sc : EmailScore) :
    apply_scoring_labels (fun _ => true) sc =
      (if jeqStr sc.category ordersCat then [lblOrders] else [])
      ++ [if (8 : ℚ) ≤ sc.importance_score then lblHigh
          else if (5 : ℚ) ≤ sc.importance_score then lblMed
          else lblLow]
      ++ (if (7 : ℚ) ≤ sc.spam_score then [lblSpam] else [])
      ++ (if sc.confidence < mkRat 6 10 then [lblReview] else [])
    ∧ apply_scoring_labels (fun _ => true)
        ⟨mkRat 13 2, 0, JValue.jstr ordersCat, demoReason, mkRat 8 10⟩ =
      [lblOrders, lblMed] := by
  constructor
  · rw [applyLabels_eq_filter]
    simp [decidedLabels, List.filter_append]
  · rfl

/-- A completion text with a JSON-tagged fence followed by two closing
fences: the specification words and the code disagree on it. -/
def c3text : Str := ("```json\nA\n```\nB\n```").toList

/-- Counterexample for claim C3: on a text whose JSON-tagged fence is
followed by two closing fences, the code does not extract the content
between the first tagged fence and the next closing fence (which would be
the single character A, as the specification-worded extraction computes);
it extracts up to the last closing fence instead. -/
theorem removeFences_next_close_cex :
    specTaggedExtract c3text = some ("A".toList)
    ∧ removeFences c3text = ("A\n```\nB".toList)
    ∧ some (removeFences c3text) ≠ specTaggedExtract c3text := by
  refine ⟨rfl, rfl, ?_⟩
  decide

/-- Claim C3 as amended: for text containing a JSON-tagged fence, the code
extracts the content strictly between the first such fence and the last
closing fence in the text (whenever that fence ends strictly after the tag);
for text containing only untagged fences, it extracts the content between
the first opening fence and the last closing fence. -/
theorem removeFences_last_close (s : Str) :
    (∀ i e, strFind fenceJson s = some i → strRFind fenceMark s = some e →
      i + 7 < e → removeFences s = pyStrip (sliceStr s (i + 7) e))
    ∧ (∀ i e, strFind fenceJson s = none → strFind fenceMark s = some i →
      strRFind fenceMark s = some e → i + 3 < e →
      removeFences s = pyStrip (sliceStr s (i + 3) e)) := by
  constructor
  · intro i e hj hr hlt
    unfold removeFences
    rw [hj, hr]
    exact if_pos hlt
  · intro i e hj hf hr hlt
    unfold removeFences
    rw [hj, hf, hr]
    exact if_pos hlt

/-- A completion text containing only untagged fences. -/
def c3textU : Str := ("```\nA\n```").toList

/-- Witness for the amended claim C3: both branches applied at concrete
texts, with all index hypotheses discharged by evaluation. -/
theorem removeFences_last_close_applied :
    removeFences c3text = pyStrip (sliceStr c3text 7 16)
    ∧ removeFences c3textU = pyStrip (sliceStr c3textU 3 6) :=
  ⟨(removeFences_last_close c3text).1 0 16 (by decide) (by decide) (by decide),
   (removeFences_last_close c3textU).2 0 6 (by decide) (by decide) (by decide) (by decide)⟩

/-- Claim C5: for every raw completion that splits as a prefix containing
the opening thinking marker, the first closing marker, and a remainder, the
think-tag removal keeps exactly the stripped remainder, so no text before
the closing marker can influence the extracted JSON. -/
theorem removeThink_discards_before_close (pre rest : Str)
    (hopen : (strFind thinkOpen (pre ++ thinkClose ++ rest)).isSome = true)
    (hclose : strFind thinkClose (pre ++ thinkClose ++ rest) = some pre.length) :
    removeThink (pre ++ thinkClose ++ rest) = pyStrip rest := by
  obtain ⟨a, ha⟩ := Option.isSome_iff_exists.mp hopen
  unfold removeThink
  rw [ha, hclose]
  have h8 : pre.length + 8 = (pre ++ thinkClose).length := by
    rw [List.length_append]
    rfl
  show pyStrip (List.drop (pre.length + 8) (pre ++ thinkClose ++ rest)) = pyStrip rest
  rw [h8, List.drop_left]

/-- A demonstration prefix with the opening thinking marker. -/
def c5pre : Str := ("<think>plan").toList

/-- A demonstration remainder after the closing thinking marker. -/
def c5rest : Str := (" done ").toList

/-- Witness for claim C5: applied at a concrete prefix and remainder. -/
theorem removeThink_discards_before_close_applied :
    removeThink (c5pre ++ thinkClose ++ c5rest) = pyStrip c5rest :=
  removeThink_discards_before_close c5pre c5rest (by decide) (by decide)

/-- When a key is absent, dict.get returns the supplied default. -/
theorem pyGet_lookup_none (fs : List (Str × JValue)) (k : Str) (d : JValue)
    (h : pyLookup fs k = none) : pyGet fs k d = d := by
  unfold pyGet
  unfold pyLookup at h
  rcases hf : fs.reverse.find? (fun p => p.1 == k) with _ | p
  · rw [hf]
  · rw [hf] at h
    simp at h

/-- When a key is present, dict.get returns its (last) value. -/
theorem pyGet_lookup_some (fs : List (Str × JValue)) (k : Str) (v d : JValue)
    (h : pyLookup fs k = some v) : pyGet fs k d = v := by
  unfold pyGet
  unfold pyLookup at h
  rcases hf : fs.reverse.find? (fun p => p.1 == k) with _ | p
  · rw [hf] at h
    simp at h
  · rw [hf] at h
    rw [hf]
    simp at h
    exact h

/-- A completion consisting of a JSON object whose importance_score value is
a non-numeric string. -/
def badJsonText : Str := ("\x7b\"importance_score\": \"high\"\x7d").toList

/-- Claim C4: when a JSON object has been extracted and structurally parsed,
every absent key yields its per-field default (importance 5, spam 0,
category unknown, reasoning No reasoning provided, confidence 0.5), while a
present value that fails float coercion for importance_score, spam_score or
confidence fails the construction of the whole response, which score_email
then routes to the fallback EmailScore, as the final concrete conjunct
shows. -/
theorem buildScore_defaults_strictness :
    (∀ fs sc, buildScore fs = Except.ok sc →
       (pyLookup fs keyImportance = none → sc.importance_score = 5)
     ∧ (pyLookup fs keySpam = none → sc.spam_score = 0)
     ∧ (pyLookup fs keyCategory = none → sc.category = JValue.jstr unknownCat)
     ∧ (pyLookup fs keyReasoning = none → sc.reasoning = JValue.jstr noReasonTxt)
     ∧ (pyLookup fs keyConfidence = none → sc.confidence = mkRat 1 2))
    ∧ (∀ fs v, pyLookup fs keyImportance = some v → pyFloat v = none →
        buildScore fs = Except.error coerceMsg)
    ∧ (∀ fs v, pyLookup fs keySpam = some v → pyFloat v = none →
        buildScore fs = Except.error coerceMsg)
    ∧ (∀ fs v, pyLookup fs keyConfidence = some v → pyFloat v = none →
        buildScore fs = Except.error coerceMsg)
    ∧ score_email (fun _ => Except.ok badJsonText) demoStr demoStr demoStr demoStr =
        fallbackScore coerceMsg := by
  refine ⟨?_, ?_, ?_, ?_, rfl⟩
  · intro fs sc h
    simp only [buildScore] at h
    rcases him : pyFloat (pyGet fs keyImportance (JValue.jnum 5)) with _ | imp
    · rw [him] at h
      simp at h
    rw [him] at h
    rcases hsp : pyFloat (pyGet fs keySpam (JValue.jnum 0)) with _ | spam
    · rw [hsp] at h
      simp at h
    rw [hsp] at h
    rcases hcf : pyFloat (pyGet fs keyConfidence (JValue.jnum (mkRat 1 2))) with _ | conf
    · rw [hcf] at h
      simp at h
    rw [hcf] at h
    injection h with h
    subst h
    refine ⟨fun hlk => ?_, fun hlk => ?_, fun hlk => ?_, fun hlk => ?_, fun hlk => ?_⟩
    · rw [pyGet_lookup_none fs keyImportance (JValue.jnum 5) hlk] at him
      simp [pyFloat] at him
      simp [him]
    · rw [pyGet_lookup_none fs keySpam (JValue.jnum 0) hlk] at hsp
      simp [pyFloat] at hsp
      simp [hsp]
    · exact pyGet_lookup_none fs keyCategory (JValue.jstr unknownCat) hlk
    · exact pyGet_lookup_none fs keyReasoning (JValue.jstr noReasonTxt) hlk
    · rw [pyGet_lookup_none fs keyConfidence (JValue.jnum (mkRat 1 2)) hlk] at hcf
      simp [pyFloat] at hcf
      simp [hcf]
  · intro fs v hlk hfl
    unfold buildScore
    rw [pyGet_lookup_some fs keyImportance v (JValue.jnum 5) hlk, hfl]
  · intro fs v hlk hfl
    unfold buildScore
    rcases him : pyFloat (pyGet fs keyImportance (JValue.jnum 5)) with _ | imp
    · rfl
    · rw [pyGet_lookup_some fs keySpam v (JValue.jnum 0) hlk, hfl]
  · intro fs v hlk hfl
    unfold buildScore
    rcases him : pyFloat (pyGet fs keyImportance (JValue.jnum 5)) with _ | imp
    · rfl
    · rcases hsp : pyFloat (pyGet fs keySpam (JValue.jnum 0)) with _ | spam
      · rfl
      · rw [pyGet_lookup_some fs keyConfidence v (JValue.jnum (mkRat 1 2)) hlk, hfl]

/-- The EmailScore built from an empty JSON object: every field is its
default. -/
def dfScore : EmailScore :=
  ⟨5, 0, JValue.jstr unknownCat, JValue.jstr noReasonTxt, mkRat 1 2⟩

/-- Witness for claim C4: the defaults branch applied to the empty object
and the strictness branch applied to a non-numeric importance value. -/
theorem buildScore_defaults_strictness_applied :
    dfScore.importance_score = 5
    ∧ buildScore [(keyImportance, JValue.jnull)] = Except.error coerceMsg :=
  ⟨(buildScore_defaults_strictness.1 [] dfScore rfl).1 rfl,
   buildScore_defaults_strictness.2.1 [(keyImportance, JValue.jnull)] JValue.jnull rfl rfl⟩

/-- A demonstration sender for the claim C6 counterexample. -/
def demoSender : Str := ("alice@example.com").toList
/-- A demonstration subject for the claim C6 counterexample. -/
def demoSubject : Str := ("Hello").toList
/-- A demonstration body for the claim C6 counterexample. -/
def demoBody : Str := ("short body").toList
/-- A demonstration date value for the claim C6 counterexample. -/
def demoDateA : Str := ("2024-06-01").toList
/-- A second, different demonstration date value. -/
def demoDateB : Str := ("1999-12-31").toList

set_option maxRecDepth 8000 in
/-- Counterexample for claim C6: the constructed classification prompt does
not embed the date of the message.  At a concrete input, the prompt is
unchanged when the date changes, and the date string does not occur in it at
all (the email_date parameter of score_email is unused by the prompt
f-string). -/
theorem buildPrompt_no_date_cex :
    buildPrompt demoSender demoSubject demoBody demoDateA =
      buildPrompt demoSender demoSubject demoBody demoDateB
    ∧ demoDateA ≠ demoDateB
    ∧ strFind demoDateA (buildPrompt demoSender demoSubject demoBody demoDateA) = none := by
  refine ⟨rfl, by decide, by decide⟩

/-- Claim C6 as amended: for every message, the classification prompt embeds
the sender, the subject, and a body preview that is the hard character-level
truncation of the body to 1500 characters (the date is accepted as a
parameter but never embedded, per the counterexample). -/
theorem buildPrompt_embeds_fields (sender subject body email_date : Str) :
    (∃ u v, buildPrompt sender subject body email_date = u ++ sender ++ v)
    ∧ (∃ u v, buildPrompt sender subject body email_date = u ++ subject ++ v)
    ∧ (∃ u v, buildPrompt sender subject body email_date = u ++ body.take 1500 ++ v)
    ∧ bodyPreview body = body.take 1500 := by
  refine ⟨⟨promptSeg1, promptSeg2 ++ subject ++ promptSeg3 ++ bodyPreview body ++ promptSeg4, ?_⟩,
          ⟨promptSeg1 ++ sender ++ promptSeg2, promptSeg3 ++ bodyPreview body ++ promptSeg4, ?_⟩,
          ⟨promptSeg1 ++ sender ++ promptSeg2 ++ subject ++ promptSeg3, promptSeg4, ?_⟩, ?_⟩
  · simp [buildPrompt]
  · simp [buildPrompt]
  · have hbp : bodyPreview body = body.take 1500 := by
      unfold bodyPreview
      split
      · simp_all
      · rfl
    simp [buildPrompt, hbp]
  · unfold bodyPreview
    split
    · simp_all
    · rfl

/-- Claim C7: for every score and every pattern of per-label application
outcomes, each decided label is attempted independently, a failed
application never blocks the remaining attempts, and the returned
labels_applied list is exactly the decided labels whose application
succeeded, in attempt order: the run with outcome function f equals the
filter by f of the all-successful run. -/
theorem apply_scoring_labels_independent_filter (f : Str → Bool) (sc : EmailScore) :
    apply_scoring_labels f sc = (apply_scoring_labels (fun _ => true) sc).filter f := by
  rw [applyLabels_eq_filter, applyLabels_eq_filter]
  simp

/-- A concrete email record for the claim C8 witness. -/
def cEmail1 : EmailRec := ⟨("id1").toList, ("s1").toList, ("sub1").toList⟩
/-- A second email record with the same identifier and different sender and
subject. -/
def cEmail2 : EmailRec := ⟨("id1").toList, ("s2").toList, ("sub2").toList⟩

/-- Claim C8: saving twice with the same message identifier leaves exactly
one row for that identifier, carrying the second call values for scores,
labels and timestamp (replace-on-conflict, not append), and after any save
the processed check for that identifier returns true. -/
theorem save_score_upsert (db : List LedgerRow) (e1 e2 : EmailRec)
    (s1 s2 : EmailScore) (l1 l2 : List Str) (t1 t2 : Int) (h : e1.id = e2.id) :
    (save_score (save_score db e1 s1 l1 t1) e2 s2 l2 t2).filter
        (fun r => r.email_id == e1.id) = [mkRow e2 s2 l2 t2]
    ∧ is_email_processed (save_score (save_score db e1 s1 l1 t1) e2 s2 l2 t2) e1.id = true
    ∧ ∀ db0 em sc ls t, is_email_processed (save_score db0 em sc ls t) em.id = true := by
  refine ⟨?_, ?_, ?_⟩
  · rw [h]
    exact save_score_filter (save_score db e1 s1 l1 t1) e2 s2 l2 t2
  · rw [h]
    exact processed_after_save (save_score db e1 s1 l1 t1) e2 s2 l2 t2
  · intro db0 em sc ls t
    exact processed_after_save db0 em sc ls t

/-- Witness for claim C8: two saves of the same identifier at concrete
values. -/
theorem save_score_upsert_applied :
    (save_score (save_score [] cEmail1 dfScore [] 0) cEmail2 dfScore [lblMed] 1).filter
        (fun r => r.email_id == cEmail1.id) = [mkRow cEmail2 dfScore [lblMed] 1]
    ∧ is_email_processed (save_score (save_score [] cEmail1 dfScore [] 0) cEmail2 dfScore [lblMed] 1) cEmail1.id = true
    ∧ ∀ db0 em sc ls t, is_email_processed (save_score db0 em sc ls t) em.id = true :=
  save_score_upsert [] cEmail1 cEmail2 dfScore dfScore [] [lblMed] 0 1 rfl

/-- Claim C9: when no ledger row falls inside the stats window, the stats
operation returns total 0, average confidence 0, zero high-importance and
spam counts and the empty category mapping, with the guarded average never
dividing by zero. -/
theorem get_performance_stats_empty_window (db : List LedgerRow) (since : Int)
    (h : db.filter (fun r => decide (since ≤ r.date_processed)) = []) :
    get_performance_stats db since = ⟨0, 0, 0, 0, []⟩ := by
  unfold get_performance_stats
  rw [h]
  rfl

/-- Witness for claim C9: the empty ledger. -/
theorem get_performance_stats_empty_window_applied :
    get_performance_stats [] 0 = ⟨0, 0, 0, 0, []⟩ :=
  get_performance_stats_empty_window [] 0 rfl

/-- Claim C10: the save operation overwrites the whole row for a message
identifier, and since it never supplies the user_feedback column, the single
row left for that identifier carries user_feedback NULL, erasing any
feedback previously recorded there. -/
theorem save_score_resets_user_feedback (db : List LedgerRow) (em : EmailRec)
    (sc : EmailScore) (labels : List Str) (now : Int) :
    (save_score db em sc labels now).filter (fun r => r.email_id == em.id) =
      [mkRow em sc labels now]
    ∧ (mkRow em sc labels now).user_feedback = none :=
  ⟨save_score_filter db em sc labels now, rfl⟩
